import Mathlib

/-!
Shallow embedding of the BCE.WeatherAPI collector and API lambdas
(`src/lambdas/weather_collector/handler.py`, `src/lambdas/weather_api/handler.py`)
and proofs about the aggregation, scoring, consensus, statistics and routing
logic. Numbers are modelled as rationals; Python dictionaries with possibly
`None` values as association lists; raised exceptions as `none`/`Option`
results; the wall clock as an explicit `now : String` parameter.
-/

namespace WeatherAPI

/-- A Python scalar value as it appears in a normalized reading dictionary:
a number (modelled as a rational) or a string. -/
inductive PyVal where
  | num (q : ℚ)
  | str (s : String)
deriving DecidableEq, Repr

/-- A Python dict with string keys whose values may be `None` (`none` here):
a normalized reading, a stored `weather_data` scalar map, a credentials map,
a query-string map. Every dict the program builds has distinct keys. -/
abbrev Dict := List (String × Option PyVal)

/-- Dict key lookup distinguishing a missing key (`none`) from a key that is
present but maps to `None` (`some none`): Python `k in d` plus `d[k]`. -/
def lookupKey (d : Dict) (k : String) : Option (Option PyVal) :=
  (d.find? (fun p => p.1 == k)).map (fun p => p.2)

/-- Python `d.get(k)`: `None` both when the key is missing and when it maps
to `None`. -/
def getv (d : Dict) (k : String) : Option PyVal :=
  (lookupKey d k).join

/-- Python truthiness of a scalar: a number is truthy unless it is zero, a
string unless it is empty. -/
def PyVal.truthy : PyVal → Bool
  | .num q => decide (q ≠ 0)
  | .str s => decide (s ≠ "")

/-- Truthiness of a `d.get(k)` result: `None` is falsy. -/
def truthyOpt : Option PyVal → Bool
  | none => false
  | some v => v.truthy

/-- Numeric view of a scalar; `none` for a string, which Python's `sum`
would reject with a `TypeError`. -/
def PyVal.toNum : PyVal → Option ℚ
  | .num q => some q
  | .str _ => none

/-- Round a rational to the nearest integer, ties to the even integer:
Python's `round` on exact values. -/
def pyRoundInt (q : ℚ) : ℤ :=
  let f := ⌊q⌋
  let r := q - (f : ℚ)
  if r < 1 / 2 then f
  else if 1 / 2 < r then f + 1
  else if f % 2 = 0 then f else f + 1

/-- Python `round(q, 2)` (idealized over exact rationals rather than binary
floats). -/
def pyRound2 (q : ℚ) : ℚ :=
  (pyRoundInt (q * 100) : ℚ) / 100

/-- Python `min(xs)` over a nonempty list of numbers. The `0` for `[]` is
never reached: every call site is guarded by a nonemptiness test. -/
def listMin : List ℚ → ℚ
  | [] => 0
  | x :: xs => xs.foldl min x

/-- Python `max(xs)` over a nonempty list of numbers, as `listMin`. -/
def listMax : List ℚ → ℚ
  | [] => 0
  | x :: xs => xs.foldl max x

/-- The nine numeric Reading fields `aggregate_weather_data` averages, in the
code's iteration order. -/
def numericFields : List String :=
  ["temperature", "feels_like", "humidity", "pressure",
   "wind_speed", "wind_direction", "clouds", "visibility", "uv_index"]

/-- The non-`None` values a field collects across the readings: the list
`aggregated[field]` built by the first loop of `aggregate_weather_data`. -/
def fieldValues (f : String) (l : List Dict) : List PyVal :=
  l.filterMap (fun d => getv d f)

/-- A lookup result that will not make Python's numeric `sum` raise:
absent, or a number. -/
def numOk : Option PyVal → Bool
  | some (.str _) => false
  | _ => true

/-- Every value a reading supplies under a numeric-field key is a number.
Adapter-normalized readings always satisfy this (the data model declares the
numeric fields as real-or-absent); when it fails, Python's `sum` raises a
`TypeError` inside `aggregate_weather_data`, modelled below as `none`. -/
def numericWellTyped (l : List Dict) : Bool :=
  l.all fun d => numericFields.all fun f => numOk (getv d f)

/-- `[d.get(k) for d in ds if d.get(k)]` applied to projected values: keep
the truthy ones. Used for the weather-consensus tally on the write path and
for each tracked field's values on the history read path. -/
def truthyFilter (vals : List (Option PyVal)) : List PyVal :=
  vals.filterMap fun o =>
    match o with
    | some v => if v.truthy then some v else none
    | none => none

/-- The `weather_descriptions` list of `aggregate_weather_data`:
`[d.get("weather") for d in valid_data if d.get("weather")]`. -/
def weatherValues (l : List Dict) : List PyVal :=
  truthyFilter (l.map fun d => getv d "weather")

/-- `Counter(xs).most_common(1)[0][0]` (`none` for an empty list): the value
with the highest count; on a tie, the tying value first encountered in `xs`.
`Counter` keeps keys in first-insertion order and `most_common` sorts stably
by count, so scanning `xs` for the first element of maximal count yields
exactly the same value. -/
def mostCommon1 (xs : List PyVal) : Option PyVal :=
  xs.find? fun k => xs.all fun j => decide (xs.count j ≤ xs.count k)

/-- The four derived keys `{field}_avg/_min/_max/_count` for one numeric
field of the aggregated record. -/
structure FieldStats where
  avg : ℚ
  min : ℚ
  max : ℚ
  count : ℕ
deriving DecidableEq, Repr

/-- The populated dict `aggregate_weather_data` returns: `sources`,
`timestamp`, `raw_data`, per numeric field the four derived keys
(`stats f = none` models the absence of all four keys for `f`), and the
optional `weather_consensus` key. -/
structure AggRecord where
  sources : List (Option PyVal)
  timestamp : String
  raw_data : List Dict
  stats : String → Option FieldStats
  weather_consensus : Option PyVal

/-- Result shape of `aggregate_weather_data`: the empty dict `{}` for empty
input, or a populated record. -/
inductive AggResult where
  | empty
  | record (r : AggRecord)

/-- Derived-key lookup on either result shape: `{}` has no derived keys. -/
def AggResult.stats : AggResult → String → Option FieldStats
  | .empty, _ => none
  | .record r, f => r.stats f

/-- The `sources` list of either result shape: `{}` has none. -/
def AggResult.sourcesList : AggResult → List (Option PyVal)
  | .empty => []
  | .record r => r.sources

/-- `aggregate_weather_data`, with the clock passed explicitly (`now` stands
for the `datetime.now(timezone.utc).isoformat()` stamp) and a raised
`TypeError` (a string under a numeric key reaching `sum`) modelled as `none`.
The `d is not None` input filter is the identity here: the caller only ever
appends readings that are not `None`, so the input list carries no `None`
entries. Under the `numericWellTyped` guard, extracting the rationals from
the collected values (`PyVal.toNum`) drops nothing. -/
def aggregate_weather_data (l : List Dict) (now : String) : Option AggResult :=
  if l = [] then some .empty
  else if numericWellTyped l then
    some (.record
      { sources := l.map fun d => getv d "source"
        timestamp := now
        raw_data := l
        stats := fun f =>
          if f ∈ numericFields ∧ fieldValues f l ≠ [] then
            let qs := (fieldValues f l).filterMap PyVal.toNum
            some { avg := pyRound2 (qs.sum / qs.length)
                   min := pyRound2 (listMin qs)
                   max := pyRound2 (listMax qs)
                   count := qs.length }
          else none
        weather_consensus := mostCommon1 (weatherValues l) })
  else none

/-- `calculate_data_quality_score`: per truthy (nonempty) reading dict, the
fraction of its keys carrying a non-`None` value; summed, divided by the
number of readings, rounded to 2 decimals; `0.0` for an empty list. -/
def calculate_data_quality_score (l : List Dict) : ℚ :=
  if l = [] then 0
  else
    pyRound2 (((l.map fun d =>
      if d ≠ [] then ((d.filter fun p => p.2.isSome).length : ℚ) / d.length
      else 0).sum) / l.length)

/-- Erase the clock stamp from an aggregation result, leaving every other
component intact. -/
def stripTimestamp : Option AggResult → Option AggResult
  | some (.record r) => some (.record { r with timestamp := "" })
  | o => o

/-- The `timestamp` key of an aggregation result, when it has one. -/
def timestampOf : Option AggResult → Option String
  | some (.record r) => some r.timestamp
  | _ => none

/-- The `weather_consensus` key of an aggregation result, when it has one. -/
def consensusOf : Option AggResult → Option PyVal
  | some (.record r) => r.weather_consensus
  | _ => none

/-- The adapter names the collector's `lambda_handler` attempts, in order: a
keyed client is appended only when its credential is truthy (present with a
nonempty value) under `if api_keys.get(name):`; Open-Meteo is always
appended, keyless. -/
def build_clients (api_keys : Dict) : List String :=
  (if truthyOpt (getv api_keys "openweathermap") then ["openweathermap"] else []) ++
  (if truthyOpt (getv api_keys "weatherapi") then ["weatherapi"] else []) ++
  (if truthyOpt (getv api_keys "visualcrossing") then ["visualcrossing"] else []) ++
  ["openmeteo"] ++
  (if truthyOpt (getv api_keys "tomorrow_io") then ["tomorrow_io"] else [])

/-- The one item `store_in_dynamodb` writes per successful cycle. The `ttl`
attribute (wall-clock seconds plus 30 days) is clock plumbing with no claim
about it and is not carried. -/
structure StoredRecord where
  location : String
  timestamp : String
  weather_data : AggResult
  data_quality_score : ℚ

/-- What one run of the collector `lambda_handler` produced: the HTTP-shaped
status of its return value and the record written to the store, if any. -/
structure CycleOutcome where
  statusCode : ℕ
  written : Option StoredRecord

/-- The collector `lambda_handler` after client construction. `fetched` holds
one entry per attempted adapter (`none` = that adapter failed and was
skipped); `storeOk` says whether `put_item` succeeds; `now` stands for the
clock (both the aggregation stamp and the item timestamp derive from it).
The catch-all `except` turns any raise — the explicit raise on an empty
list, an aggregation `TypeError`, a store failure, or the `KeyError` on
`aggregated_data["timestamp"]` — into the 500 response. -/
def collect_cycle (fetched : List (Option Dict)) (storeOk : Bool) (now : String) :
    CycleOutcome :=
  let all_data := fetched.filterMap id
  if all_data = [] then ⟨500, none⟩
  else
    match aggregate_weather_data all_data now with
    | none => ⟨500, none⟩
    | some agg =>
      if storeOk then
        let stored : StoredRecord :=
          ⟨"lewisville-tx", now, agg, calculate_data_quality_score all_data⟩
        match agg with
        | .record _ => ⟨200, some stored⟩
        | .empty => ⟨500, some stored⟩
      else ⟨500, none⟩

/-- One entry of the `statistics` dict of `get_historical_weather`:
`avg` is `round(mean, 2)` of the contributing values, `min`/`max` the
unrounded extremes; all three are `None` when nothing contributed. -/
structure StatEntry where
  avg : Option ℚ
  min : Option ℚ
  max : Option ℚ
deriving DecidableEq, Repr

/-- The `statistics` dict: one entry per tracked field. -/
structure Statistics where
  temperature : StatEntry
  humidity : StatEntry
  pressure : StatEntry
deriving DecidableEq, Repr

/-- All-numeric view of a value list: `none` as soon as one value is a
string — the point where Python's `sum` raises `TypeError`. -/
def allNums : List PyVal → Option (List ℚ)
  | [] => some []
  | v :: vs =>
    match v.toNum with
    | some q => (allNums vs).map fun qs => q :: qs
    | none => none

/-- One tracked field's statistics entry from the per-record projected
values: keep the truthy values (`if d.get(field)`), then `avg`/`min`/`max`.
`none` overall models the `TypeError` raised by `sum` when a kept value is a
string. -/
def statEntry (vals : List (Option PyVal)) : Option StatEntry :=
  let vs := truthyFilter vals
  if vs = [] then some ⟨none, none, none⟩
  else
    (allNums vs).map fun qs =>
      ⟨some (pyRound2 (qs.sum / qs.length)), some (listMin qs), some (listMax qs)⟩

/-- The `weather_data` value of a stored item. `PyVal` is scalar, so the two
list-valued keys the collector writes (`sources`, `raw_data`) are carried
beside the dict of scalar keys (`{field}_avg/..`, `weather_consensus`);
`d.get` on a scalar key reads `numeric`, `d.get("sources", [])` reads
`sources` (an absent key and an empty list behave identically downstream). -/
structure StoredWeather where
  numeric : Dict
  sources : List (Option PyVal)
  raw_data : List Dict
deriving DecidableEq, Repr

/-- A DynamoDB item as written by the collector: the four attributes of
`store_in_dynamodb` (`ttl` aside, see `StoredRecord`). -/
structure Item where
  location : String
  timestamp : String
  weather_data : StoredWeather
  data_quality_score : ℚ
deriving DecidableEq, Repr

/-- One entry of the `history` list of `get_historical_weather`. -/
structure HistEntry where
  timestamp : String
  data_quality_score : ℚ
  temperature : Option PyVal
  humidity : Option PyVal
  pressure : Option PyVal
  wind_speed : Option PyVal
  clouds : Option PyVal
  weather : Option PyVal
  sources_count : ℕ
deriving DecidableEq, Repr

/-- The entry `get_historical_weather` builds from one item. -/
def histEntry (it : Item) : HistEntry :=
  { timestamp := it.timestamp
    data_quality_score := it.data_quality_score
    temperature := getv it.weather_data.numeric "temperature_avg"
    humidity := getv it.weather_data.numeric "humidity_avg"
    pressure := getv it.weather_data.numeric "pressure_avg"
    wind_speed := getv it.weather_data.numeric "wind_speed_avg"
    clouds := getv it.weather_data.numeric "clouds_avg"
    weather := getv it.weather_data.numeric "weather_consensus"
    sources_count := it.weather_data.sources.length }

/-- The `statistics` computation of `get_historical_weather` over the built
history entries. -/
def computeStatistics (es : List HistEntry) : Option Statistics := do
  let t ← statEntry (es.map (fun e => e.temperature))
  let h ← statEntry (es.map (fun e => e.humidity))
  let p ← statEntry (es.map (fun e => e.pressure))
  pure ⟨t, h, p⟩

/-- What the amended C5 claim asserts of one tracked field's entry: the
truthy per-record values drive `avg`/`min`/`max`; no contributing value
means all three are `None` (never a substituted zero); and every present,
nonzero numeric per-record value contributes. -/
abbrev entrySpec (vals : List (Option PyVal)) (e : StatEntry) : Prop :=
  let qs := (truthyFilter vals).filterMap PyVal.toNum
  (truthyFilter vals = [] → e = ⟨none, none, none⟩) ∧
  (truthyFilter vals ≠ [] →
    e = ⟨some (pyRound2 (qs.sum / qs.length)), some (listMin qs), some (listMax qs)⟩) ∧
  (∀ q : ℚ, some (PyVal.num q) ∈ vals → q ≠ 0 → q ∈ qs)

/-- One `value`/`min`/`max` triple of the `current_conditions` dict. -/
structure CondTriple where
  value : Option PyVal
  min : Option PyVal
  max : Option PyVal
deriving DecidableEq, Repr

/-- The triple for one field, read off the stored scalar keys. -/
def condTriple (wd : Dict) (f : String) : CondTriple :=
  ⟨getv wd (f ++ "_avg"), getv wd (f ++ "_min"), getv wd (f ++ "_max")⟩

/-- The `current_conditions` dict of `get_current_weather` (units are
constant strings and not carried). -/
structure CurrentConditions where
  temperature : CondTriple
  feels_like : CondTriple
  humidity : CondTriple
  pressure : CondTriple
  wind_speed : CondTriple
  wind_direction : Option PyVal
  clouds : CondTriple
  visibility : CondTriple
  uv_index : CondTriple
  weather : PyVal
deriving DecidableEq, Repr

/-- Build `current_conditions` from the stored scalar keys. -/
def currentConditions (wd : Dict) : CurrentConditions :=
  { temperature := condTriple wd "temperature"
    feels_like := condTriple wd "feels_like"
    humidity := condTriple wd "humidity"
    pressure := condTriple wd "pressure"
    wind_speed := condTriple wd "wind_speed"
    wind_direction := getv wd "wind_direction_avg"
    clouds := condTriple wd "clouds"
    visibility := condTriple wd "visibility"
    uv_index := condTriple wd "uv_index"
    weather := (getv wd "weather_consensus").getD (.str "Unknown") }

/-- The distinguishable JSON bodies the API lambda produces. Constant
informational bodies (`/weather/sources`, the OPTIONS reply) are opaque
constructors; the clock-derived `period.start`/`period.end` strings of the
history body are not carried. -/
inductive ApiBody where
  | emptyBody
  | notFoundCurrent
  | currentData (location timestamp : String) (score : ℚ)
      (sources : List (Option PyVal)) (conditions : CurrentConditions)
  | notFoundHistory (hours : ℤ)
  | history (hours : ℤ) (dataPoints : ℕ) (stats : Statistics)
      (entries : List HistEntry)
  | dbErrorCurrent
  | dbErrorHistory
  | internalError
  | sourcesInfo
  | pathNotFound (path : String)
deriving DecidableEq, Repr

/-- `create_response`: status code plus body (the constant CORS headers are
not carried). -/
structure ApiResp where
  statusCode : ℕ
  body : ApiBody
deriving DecidableEq, Repr

/-- `create_response` as called by every endpoint. -/
def create_response (c : ℕ) (b : ApiBody) : ApiResp := ⟨c, b⟩

/-- Outcome of the DynamoDB query a read endpoint performs: the items, a
`botocore` `ClientError`, or any other exception. -/
inductive FetchOutcome where
  | ok (items : List Item)
  | clientError
  | exn

/-- `get_current_weather` as a function of its store interaction. -/
def get_current_weather (q : FetchOutcome) : ApiResp :=
  match q with
  | .clientError => create_response 500 .dbErrorCurrent
  | .exn => create_response 500 .internalError
  | .ok [] => create_response 404 .notFoundCurrent
  | .ok (item :: _) =>
      create_response 200 (.currentData item.location item.timestamp
        item.data_quality_score item.weather_data.sources
        (currentConditions item.weather_data.numeric))

/-- `get_historical_weather` as a function of `hours` and its store
interaction. A statistics `TypeError` lands in the generic `except` (500). -/
def get_historical_weather (hours : ℤ) (q : FetchOutcome) : ApiResp :=
  match q with
  | .clientError => create_response 500 .dbErrorHistory
  | .exn => create_response 500 .internalError
  | .ok items =>
    if items = [] then create_response 404 (.notFoundHistory hours)
    else
      let entries := items.map histEntry
      match computeStatistics entries with
      | none => create_response 500 .internalError
      | some st =>
          create_response 200 (.history hours entries.length st entries)

/-- Python `int(s)` on a query-string value: optional sign then decimal
digits; anything else raises `ValueError` (`none`). Python's tolerance for
surrounding whitespace and underscores is not exercised by query strings
and is not modelled. -/
def parseIntStr (s : String) : Option ℤ :=
  let core : List Char → Option ℕ := fun ds =>
    if ds = [] then none
    else if ds.all Char.isDigit then
      some (ds.foldl (fun n c => 10 * n + (c.toNat - 48)) 0)
    else none
  match s.data with
  | '-' :: rest => (core rest).map fun n => -(n : ℤ)
  | '+' :: rest => (core rest).map fun n => (n : ℤ)
  | ds => (core ds).map fun n => (n : ℤ)

/-- Python `int(v)` on a scalar: parse a string, truncate a number toward
zero. -/
def pyToInt : PyVal → Option ℤ
  | .num q => some (if 0 ≤ q then ⌊q⌋ else ⌈q⌉)
  | .str s => parseIntStr s

/-- The parts of an API Gateway event the handler reads. A missing
`queryStringParameters` and an explicit `None` both become `{}` via
`event.get('queryStringParameters', {}) or {}`. -/
structure Event where
  httpMethod : Option String
  path : Option String
  queryStringParameters : Option Dict

/-- The API `lambda_handler` routing. It runs outside any `try`, so a
`ValueError` from `int(...)` — or a `TypeError` from `int(None)` when
`hours` is present but `None` — propagates out of the lambda (`none`:
no response dict is returned). `get_health_status` depends on the clock and
the store in ways no claim touches, so its response is a parameter. -/
def api_lambda_handler (event : Event) (currentQ histQ : FetchOutcome)
    (healthResp : ApiResp) : Option ApiResp :=
  if event.httpMethod = some "OPTIONS" then some (create_response 200 .emptyBody)
  else
    let path := event.path.getD "/"
    let qp := event.queryStringParameters.getD []
    if path = "/weather/current" then some (get_current_weather currentQ)
    else if path = "/weather/history" then
      match (match lookupKey qp "hours" with
             | none => some (24 : ℤ)
             | some none => none
             | some (some v) => pyToInt v) with
      | none => none
      | some h => some (get_historical_weather (min h 168) histQ)
    else if path = "/weather/sources" then some (create_response 200 .sourcesInfo)
    else if path = "/health" then some healthResp
    else some (create_response 404 (.pathNotFound path))

/-- The spec example for the consensus tie-break: four readings whose
weather values are, in input order, Cloudy, Rain, Cloudy, Rain. -/
def exTieReadings : List Dict :=
  [[("source", some (.str "a")), ("weather", some (.str "Cloudy"))],
   [("source", some (.str "b")), ("weather", some (.str "Rain"))],
   [("source", some (.str "c")), ("weather", some (.str "Cloudy"))],
   [("source", some (.str "d")), ("weather", some (.str "Rain"))]]

/-- A minimal normalized reading for the purity counterexample. -/
def exReading : Dict :=
  [("source", some (.str "a")), ("temperature", some (.num 20))]

/-- Two stored records whose `temperature_avg` values are 0 and 10: the
first is present yet falsy, so the statistics drop it. -/
def exZeroItems : List Item :=
  [⟨"lewisville-tx", "2024-01-01T00:00:00+00:00",
    ⟨[("temperature_avg", some (.num 0))], [some (.str "openmeteo")], []⟩, 1⟩,
   ⟨"lewisville-tx", "2024-01-01T00:20:00+00:00",
    ⟨[("temperature_avg", some (.num 10))], [some (.str "openmeteo")], []⟩, 1⟩]

/-- A representative stored item for the read-path witnesses. -/
def exItem : Item :=
  ⟨"lewisville-tx", "2024-01-01T00:00:00+00:00",
   ⟨[("temperature_avg", some (.num (21 / 2))),
     ("temperature_min", some (.num 10)),
     ("temperature_max", some (.num 11)),
     ("weather_consensus", some (.str "Clear"))],
    [some (.str "openmeteo")], []⟩, 17 / 20⟩

/-- The tracked per-record values of a history-entry list are numbers when
present — true of every record the collector writes, whose `{field}_avg`
values are rounded numbers. -/
def entriesNumeric (es : List HistEntry) : Bool :=
  es.all fun e => numOk e.temperature && numOk e.humidity && numOk e.pressure

/-- The spec §8 example readings: two sources agreeing on Clear with
temperatures 24 and 26. -/
def exNumericReadings : List Dict :=
  [[("source", some (.str "a")), ("temperature", some (.num 24)),
    ("weather", some (.str "Clear"))],
   [("source", some (.str "b")), ("temperature", some (.num 26)),
    ("weather", some (.str "Clear"))]]

theorem pyRoundInt_ge (q : ℚ) : ⌊q⌋ ≤ pyRoundInt q := by
  simp only [pyRoundInt]
  split_ifs <;> omega

theorem pyRoundInt_le (q : ℚ) : pyRoundInt q ≤ ⌊q⌋ + 1 := by
  simp only [pyRoundInt]
  split_ifs <;> omega

theorem pyRoundInt_mono {x y : ℚ} (h : x ≤ y) : pyRoundInt x ≤ pyRoundInt y := by
  rcases lt_or_le ⌊x⌋ ⌊y⌋ with hf | hf
  · exact le_trans (pyRoundInt_le x) (le_trans (by omega) (pyRoundInt_ge y))
  · have hxy : ⌊y⌋ = ⌊x⌋ := le_antisymm hf (Int.floor_mono h)
    have hr : x - (⌊x⌋ : ℚ) ≤ y - (⌊x⌋ : ℚ) := by linarith
    simp only [pyRoundInt, hxy]
    split_ifs <;> first | omega | linarith

theorem pyRound2_mono {x y : ℚ} (h : x ≤ y) : pyRound2 x ≤ pyRound2 y := by
  have h100 : x * 100 ≤ y * 100 := by linarith
  have hint := pyRoundInt_mono h100
  have hq : (pyRoundInt (x * 100) : ℚ) ≤ (pyRoundInt (y * 100) : ℚ) := by
    exact_mod_cast hint
  simp only [pyRound2]
  linarith

theorem foldl_min_le (l : List ℚ) :
    ∀ a : ℚ, l.foldl min a ≤ a ∧ ∀ x ∈ l, l.foldl min a ≤ x := by
  induction l with
  | nil => intro a; simp
  | cons b t ih =>
    intro a
    simp only [List.foldl_cons]
    refine ⟨le_trans (ih (min a b)).1 (min_le_left a b), ?_⟩
    intro x hx
    rcases List.mem_cons.mp hx with rfl | hx
    · exact le_trans (ih (min a x)).1 (min_le_right a x)
    · exact (ih (min a b)).2 x hx

theorem le_foldl_max (l : List ℚ) :
    ∀ a : ℚ, a ≤ l.foldl max a ∧ ∀ x ∈ l, x ≤ l.foldl max a := by
  induction l with
  | nil => intro a; simp
  | cons b t ih =>
    intro a
    simp only [List.foldl_cons]
    refine ⟨le_trans (le_max_left a b) (ih (max a b)).1, ?_⟩
    intro x hx
    rcases List.mem_cons.mp hx with rfl | hx
    · exact le_trans (le_max_right a x) (ih (max a x)).1
    · exact (ih (max a b)).2 x hx

theorem listMin_le_of_mem {x : ℚ} {l : List ℚ} (hx : x ∈ l) : listMin l ≤ x := by
  cases l with
  | nil => simp at hx
  | cons a t =>
    rcases List.mem_cons.mp hx with rfl | hx
    · exact (foldl_min_le t x).1
    · exact (foldl_min_le t a).2 x hx

theorem le_listMax_of_mem {x : ℚ} {l : List ℚ} (hx : x ∈ l) : x ≤ listMax l := by
  cases l with
  | nil => simp at hx
  | cons a t =>
    rcases List.mem_cons.mp hx with rfl | hx
    · exact (le_foldl_max t x).1
    · exact (le_foldl_max t a).2 x hx

theorem mul_length_le_sum {l : List ℚ} {m : ℚ} (h : ∀ x ∈ l, m ≤ x) :
    m * l.length ≤ l.sum := by
  induction l with
  | nil => simp
  | cons a t ih =>
    have ha := h a (List.mem_cons_self a t)
    have ht := ih fun x hx => h x (List.mem_cons_of_mem a hx)
    simp only [List.sum_cons, List.length_cons]
    push_cast
    nlinarith [ht, ha]

theorem sum_le_mul_length {l : List ℚ} {m : ℚ} (h : ∀ x ∈ l, x ≤ m) :
    l.sum ≤ m * l.length := by
  induction l with
  | nil => simp
  | cons a t ih =>
    have ha := h a (List.mem_cons_self a t)
    have ht := ih fun x hx => h x (List.mem_cons_of_mem a hx)
    simp only [List.sum_cons, List.length_cons]
    push_cast
    nlinarith [ht, ha]

theorem length_pos_q {α} {l : List α} (h : l ≠ []) : (0 : ℚ) < l.length := by
  have := List.length_pos.mpr h
  exact_mod_cast this

theorem listMin_le_mean {l : List ℚ} (h : l ≠ []) : listMin l ≤ l.sum / l.length := by
  rw [le_div_iff₀ (length_pos_q h)]
  exact mul_length_le_sum fun x hx => listMin_le_of_mem hx

theorem mean_le_listMax {l : List ℚ} (h : l ≠ []) : l.sum / l.length ≤ listMax l := by
  rw [div_le_iff₀ (length_pos_q h)]
  exact sum_le_mul_length fun x hx => le_listMax_of_mem hx

theorem length_filterMap_eq_length_filter {α β : Type} (g : α → Option β)
    (l : List α) :
    (l.filterMap g).length = (l.filter fun a => (g a).isSome).length := by
  induction l with
  | nil => rfl
  | cons a t ih =>
    cases hga : g a <;>
      simp [List.filterMap_cons, List.filter_cons, hga, ih]

theorem length_filterMap_of_isSome {α β : Type} {g : α → Option β} {l : List α}
    (h : ∀ a ∈ l, (g a).isSome) : (l.filterMap g).length = l.length := by
  induction l with
  | nil => rfl
  | cons a t ih =>
    have ha := h a (List.mem_cons_self a t)
    cases hga : g a with
    | none => rw [hga] at ha; simp at ha
    | some b =>
      simp [List.filterMap_cons, hga,
        ih fun x hx => h x (List.mem_cons_of_mem a hx)]

theorem find?_eq_some_split {α : Type} {p : α → Bool} :
    ∀ {l : List α} {c : α}, l.find? p = some c →
      ∃ pre post, l = pre ++ c :: post ∧ ∀ w ∈ pre, p w = false := by
  intro l
  induction l with
  | nil => intro c h; simp [List.find?] at h
  | cons a t ih =>
    intro c h
    by_cases hpa : p a = true
    · rw [List.find?_cons_of_pos _ hpa] at h
      obtain rfl : a = c := by injection h
      exact ⟨[], t, rfl, by intro w hw; simp at hw⟩
    · have hpa' : p a = false := by
        cases hval : p a
        · rfl
        · exact absurd hval hpa
      rw [List.find?_cons_of_neg _ hpa] at h
      obtain ⟨pre, post, rfl, hpre⟩ := ih h
      refine ⟨a :: pre, post, rfl, ?_⟩
      intro w hw
      rcases List.mem_cons.mp hw with rfl | hw
      · exact hpa'
      · exact hpre w hw

theorem exists_max_image {α : Type} (xs : List α) (g : α → ℕ) (h : xs ≠ []) :
    ∃ k ∈ xs, ∀ j ∈ xs, g j ≤ g k := by
  induction xs with
  | nil => exact absurd rfl h
  | cons a t ih =>
    cases t with
    | nil =>
      refine ⟨a, List.mem_cons_self a [], ?_⟩
      intro j hj
      rcases List.mem_cons.mp hj with rfl | hj
      · exact le_refl _
      · simp at hj
    | cons b u =>
      obtain ⟨k, hk, hmax⟩ := ih (by simp)
      by_cases hcmp : g a ≤ g k
      · refine ⟨k, List.mem_cons_of_mem a hk, ?_⟩
        intro j hj
        rcases List.mem_cons.mp hj with rfl | hj
        · exact hcmp
        · exact hmax j hj
      · push_neg at hcmp
        refine ⟨a, List.mem_cons_self a _, ?_⟩
        intro j hj
        rcases List.mem_cons.mp hj with rfl | hj
        · exact le_refl _
        · exact le_trans (hmax j hj) (le_of_lt hcmp)

theorem allNums_eq_of_no_str {vs : List PyVal}
    (h : ∀ v ∈ vs, (PyVal.toNum v).isSome) :
    allNums vs = some (vs.filterMap PyVal.toNum) := by
  induction vs with
  | nil => rfl
  | cons v t ih =>
    have hv := h v (List.mem_cons_self v t)
    cases hv' : PyVal.toNum v with
    | none => rw [hv'] at hv; simp at hv
    | some q =>
      simp [allNums, hv', List.filterMap_cons,
        ih fun w hw => h w (List.mem_cons_of_mem v hw)]

theorem toNum_isSome_of_numOk {o : Option PyVal} (h : numOk o = true) {v : PyVal}
    (ho : o = some v) : (PyVal.toNum v).isSome := by
  subst ho
  cases v with
  | num q => simp [PyVal.toNum]
  | str s => simp [numOk] at h

theorem toNum_isSome_of_wellTyped {l : List Dict}
    (hw : numericWellTyped l = true) {f : String} (hf : f ∈ numericFields)
    {v : PyVal} (hv : v ∈ fieldValues f l) : (PyVal.toNum v).isSome := by
  obtain ⟨d, hd, hgd⟩ := List.mem_filterMap.mp hv
  have h1 := List.all_eq_true.mp hw d hd
  have h2 := List.all_eq_true.mp h1 f hf
  exact toNum_isSome_of_numOk h2 hgd

theorem fieldValues_ne_nil {f : String} {l : List Dict}
    (h : ∃ d ∈ l, (getv d f).isSome) : fieldValues f l ≠ [] := by
  obtain ⟨d, hd, hs⟩ := h
  obtain ⟨v, hv⟩ := Option.isSome_iff_exists.mp hs
  exact List.ne_nil_of_mem (List.mem_filterMap.mpr ⟨d, hd, hv⟩)

theorem mem_truthyFilter_of {vals : List (Option PyVal)} {v : PyVal}
    (hmem : some v ∈ vals) (ht : PyVal.truthy v = true) :
    v ∈ truthyFilter vals := by
  refine List.mem_filterMap.mpr ⟨some v, hmem, ?_⟩
  simp [ht]

theorem truthyFilter_value_shape {vals : List (Option PyVal)} {v : PyVal}
    (hv : v ∈ truthyFilter vals) : some v ∈ vals ∧ PyVal.truthy v = true := by
  obtain ⟨o, ho, heq⟩ := List.mem_filterMap.mp hv
  cases o with
  | none => simp at heq
  | some w =>
    by_cases hw : PyVal.truthy w = true
    · simp [hw] at heq
      subst heq
      exact ⟨ho, hw⟩
    · simp [hw] at heq

theorem aggregate_weather_data_unfold {l : List Dict} (now : String)
    (hne : l ≠ []) (hw : numericWellTyped l = true) :
    ∃ r : AggRecord, aggregate_weather_data l now = some (.record r) ∧
      (∀ f : String, r.stats f =
        if f ∈ numericFields ∧ fieldValues f l ≠ [] then
          some { avg := pyRound2 ((((fieldValues f l).filterMap PyVal.toNum).sum) /
                   (((fieldValues f l).filterMap PyVal.toNum).length))
                 min := pyRound2 (listMin ((fieldValues f l).filterMap PyVal.toNum))
                 max := pyRound2 (listMax ((fieldValues f l).filterMap PyVal.toNum))
                 count := ((fieldValues f l).filterMap PyVal.toNum).length }
        else none) ∧
      r.sources = (l.map fun d => getv d "source") ∧
      r.weather_consensus = mostCommon1 (weatherValues l) ∧
      r.timestamp = now := by
  unfold aggregate_weather_data
  rw [if_neg hne, if_pos hw]
  exact ⟨_, rfl, fun f => rfl, rfl, rfl, rfl⟩

/-- C1. For every nonempty list of Readings (numeric fields carrying
numbers, per the data model) and every numeric field some Reading supplies,
the aggregated record carries the four derived keys: `avg`/`min`/`max` are
the rounded mean/minimum/maximum of the collected values, `min ≤ avg ≤ max`
holds, and `count` is the number of Readings supplying the field. -/
theorem aggregate_field_stats_bounds :
    ∀ (l : List Dict) (now f : String),
      l ≠ [] → numericWellTyped l = true → f ∈ numericFields →
      (∃ d ∈ l, (getv d f).isSome) →
      ∃ r : AggRecord, aggregate_weather_data l now = some (.record r) ∧
        ∃ s : FieldStats, r.stats f = some s ∧
          s.avg = pyRound2 ((((fieldValues f l).filterMap PyVal.toNum).sum) /
            (((fieldValues f l).filterMap PyVal.toNum).length)) ∧
          s.min = pyRound2 (listMin ((fieldValues f l).filterMap PyVal.toNum)) ∧
          s.max = pyRound2 (listMax ((fieldValues f l).filterMap PyVal.toNum)) ∧
          s.min ≤ s.avg ∧ s.avg ≤ s.max ∧
          s.count = (l.filter fun d => (getv d f).isSome).length := by
  intro l now f hne hw hf hex
  have hvne : fieldValues f l ≠ [] := fieldValues_ne_nil hex
  have hnum : ∀ v ∈ fieldValues f l, (PyVal.toNum v).isSome :=
    fun v hv => toNum_isSome_of_wellTyped hw hf hv
  have hlen : ((fieldValues f l).filterMap PyVal.toNum).length =
      (fieldValues f l).length := length_filterMap_of_isSome hnum
  have hqne : (fieldValues f l).filterMap PyVal.toNum ≠ [] := by
    intro h0
    rw [h0] at hlen
    exact hvne (List.length_eq_zero.mp hlen.symm)
  obtain ⟨r, hagg, hstats, -, -, -⟩ := aggregate_weather_data_unfold now hne hw
  refine ⟨r, hagg, ?_⟩
  rw [hstats f, if_pos ⟨hf, hvne⟩]
  refine ⟨_, rfl, rfl, rfl, rfl, ?_, ?_, ?_⟩
  · exact pyRound2_mono (listMin_le_mean hqne)
  · exact pyRound2_mono (mean_le_listMax hqne)
  · show ((fieldValues f l).filterMap PyVal.toNum).length = _
    rw [hlen]
    exact length_filterMap_eq_length_filter (fun d => getv d f) l

/-- Witness for C1 at the spec §8 example: two sources with temperatures 24
and 26. -/
theorem aggregate_field_stats_bounds_witness :
    ∃ r : AggRecord,
      aggregate_weather_data exNumericReadings "t" = some (.record r) ∧
      ∃ s : FieldStats, r.stats "temperature" = some s ∧
        s.avg = pyRound2 ((((fieldValues "temperature" exNumericReadings).filterMap
            PyVal.toNum).sum) /
          (((fieldValues "temperature" exNumericReadings).filterMap PyVal.toNum).length)) ∧
        s.min = pyRound2 (listMin ((fieldValues "temperature" exNumericReadings).filterMap
          PyVal.toNum)) ∧
        s.max = pyRound2 (listMax ((fieldValues "temperature" exNumericReadings).filterMap
          PyVal.toNum)) ∧
        s.min ≤ s.avg ∧ s.avg ≤ s.max ∧
        s.count = (exNumericReadings.filter fun d =>
          (getv d "temperature").isSome).length :=
  aggregate_field_stats_bounds exNumericReadings "t" "temperature"
    (by decide) (by decide) (by decide)
    ⟨[("source", some (.str "a")), ("temperature", some (.num 24)),
      ("weather", some (.str "Clear"))], by decide, by decide⟩

/-- C6. For numeric-typed Readings, aggregation succeeds, a field no Reading
supplies contributes none of its four derived keys, and every field that
does appear counts at most `len(sources)` contributors. -/
theorem aggregate_omits_unsupplied_fields :
    ∀ (l : List Dict) (now f : String),
      numericWellTyped l = true →
      ∃ res : AggResult, aggregate_weather_data l now = some res ∧
        ((∀ d ∈ l, getv d f = none) → res.stats f = none) ∧
        (∀ (g : String) (s : FieldStats), res.stats g = some s →
          s.count ≤ res.sourcesList.length) := by
  intro l now f hw
  by_cases hne : l = []
  · subst hne
    refine ⟨.empty, rfl, fun _ => rfl, ?_⟩
    intro g s hs
    simp [AggResult.stats] at hs
  · obtain ⟨r, hagg, hstats, hsrc, -, -⟩ := aggregate_weather_data_unfold now hne hw
    refine ⟨.record r, hagg, ?_, ?_⟩
    · intro hall
      show r.stats f = none
      rw [hstats f]
      have hnil : fieldValues f l = [] :=
        List.filterMap_eq_nil_iff.mpr fun d hd => hall d hd
      rw [if_neg]
      rintro ⟨-, hcon⟩
      exact hcon hnil
    · intro g s hs
      show s.count ≤ (AggResult.sourcesList (.record r)).length
      have hsl : (AggResult.sourcesList (.record r)).length = l.length := by
        show r.sources.length = l.length
        rw [hsrc]
        exact List.length_map l _
      rw [hsl]
      have hg : r.stats g = some s := hs
      rw [hstats g] at hg
      by_cases hc : g ∈ numericFields ∧ fieldValues g l ≠ []
      · rw [if_pos hc] at hg
        have hcount : s.count = ((fieldValues g l).filterMap PyVal.toNum).length := by
          cases hg
          rfl
        rw [hcount]
        exact le_trans (List.length_filterMap_le _ _)
          (List.length_filterMap_le (fun d => getv d g) l)
      · rw [if_neg hc] at hg
        exact absurd hg (by simp)

/-- Witness for C6: no reading supplies `humidity`, so its four derived keys
are absent, and the supplied `temperature` counts at most `len(sources)`. -/
theorem aggregate_omits_unsupplied_fields_witness :
    ∃ res : AggResult,
      aggregate_weather_data exNumericReadings "t" = some res ∧
      ((∀ d ∈ exNumericReadings, getv d "humidity" = none) →
        res.stats "humidity" = none) ∧
      (∀ (g : String) (s : FieldStats), res.stats g = some s →
        s.count ≤ res.sourcesList.length) :=
  aggregate_omits_unsupplied_fields exNumericReadings "t" "humidity" (by decide)

/-- C2. Whenever some Reading carries a truthy weather string, the consensus
is a value of maximal count among the tallied weather strings, and every
value encountered before its first occurrence has strictly smaller count —
so ties resolve to the value encountered first in input order; in
particular, for weather values Cloudy, Rain, Cloudy, Rain the consensus is
Cloudy. -/
theorem weather_consensus_first_encountered_max :
    (∀ (l : List Dict) (now : String),
      l ≠ [] → numericWellTyped l = true → weatherValues l ≠ [] →
      ∃ (r : AggRecord) (c : PyVal) (pre post : List PyVal),
        aggregate_weather_data l now = some (.record r) ∧
        r.weather_consensus = some c ∧
        weatherValues l = pre ++ c :: post ∧
        (∀ w ∈ weatherValues l,
          (weatherValues l).count w ≤ (weatherValues l).count c) ∧
        (∀ w ∈ pre, (weatherValues l).count w < (weatherValues l).count c)) ∧
    consensusOf (aggregate_weather_data exTieReadings "t") =
      some (.str "Cloudy") := by
  constructor
  · intro l now hne hw hwv
    obtain ⟨r, hagg, -, -, hcons, -⟩ := aggregate_weather_data_unfold now hne hw
    obtain ⟨k, hk, hmax⟩ :=
      exists_max_image (weatherValues l) (fun j => (weatherValues l).count j) hwv
    have hsome : (mostCommon1 (weatherValues l)).isSome := by
      unfold mostCommon1
      exact List.find?_isSome.mpr
        ⟨k, hk, List.all_eq_true.mpr fun j hj => decide_eq_true (hmax j hj)⟩
    obtain ⟨c, hc⟩ := Option.isSome_iff_exists.mp hsome
    have hcfind : (weatherValues l).find?
        (fun a => (weatherValues l).all fun j =>
          decide ((weatherValues l).count j ≤ (weatherValues l).count a)) = some c := hc
    have hpc0 := List.find?_some hcfind
    have hpc : ((weatherValues l).all fun j =>
        decide ((weatherValues l).count j ≤ (weatherValues l).count c)) = true := hpc0
    have hcmax : ∀ w ∈ weatherValues l,
        (weatherValues l).count w ≤ (weatherValues l).count c := by
      intro w hw'
      exact of_decide_eq_true (List.all_eq_true.mp hpc w hw')
    obtain ⟨pre, post, hsplit, hpre⟩ := find?_eq_some_split hcfind
    refine ⟨r, c, pre, post, hagg, ?_, hsplit, hcmax, ?_⟩
    · rw [hcons]
      exact hc
    · intro w hwpre
      have hfalse := hpre w hwpre
      obtain ⟨j, hj, hjw⟩ := List.all_eq_false.mp hfalse
      have hjw' : ¬ (weatherValues l).count j ≤ (weatherValues l).count w :=
        fun hle => hjw (decide_eq_true hle)
      have := hcmax j hj
      omega
  · decide

/-- Witness for C2 at the tie example readings. -/
theorem weather_consensus_first_encountered_max_witness :
    ∃ (r : AggRecord) (c : PyVal) (pre post : List PyVal),
      aggregate_weather_data exTieReadings "t" = some (.record r) ∧
      r.weather_consensus = some c ∧
      weatherValues exTieReadings = pre ++ c :: post ∧
      (∀ w ∈ weatherValues exTieReadings,
        (weatherValues exTieReadings).count w ≤
          (weatherValues exTieReadings).count c) ∧
      (∀ w ∈ pre, (weatherValues exTieReadings).count w <
        (weatherValues exTieReadings).count c) :=
  weather_consensus_first_encountered_max.1 exTieReadings "t"
    (by decide) (by decide) (by decide)

/-- C3. The quality score is the mean over the readings of the fraction of
declared dict keys carrying a non-`None` value, rounded to 2 decimals; it is
0 for an empty list, 0 for a single all-absent reading, and 1 for a single
all-present reading. -/
theorem quality_score_spec :
    (∀ l : List Dict, l ≠ [] →
      calculate_data_quality_score l =
        pyRound2 (((l.map fun d =>
          ((d.filter fun p => p.2.isSome).length : ℚ) / d.length).sum) /
          l.length)) ∧
    calculate_data_quality_score [] = 0 ∧
    (∀ d : Dict, d ≠ [] → (∀ p ∈ d, p.2 = none) →
      calculate_data_quality_score [d] = 0) ∧
    (∀ d : Dict, d ≠ [] → (∀ p ∈ d, (p.2).isSome) →
      calculate_data_quality_score [d] = 1) := by
  have hmap : ∀ l : List Dict,
      (l.map fun d =>
        if d ≠ [] then ((d.filter fun p => p.2.isSome).length : ℚ) / d.length
        else 0) =
      (l.map fun d => ((d.filter fun p => p.2.isSome).length : ℚ) / d.length) := by
    intro l
    refine List.map_congr_left ?_
    intro d hd
    by_cases hdn : d = []
    · subst hdn
      simp
    · rw [if_pos hdn]
  refine ⟨?_, ?_, ?_, ?_⟩
  · intro l hne
    unfold calculate_data_quality_score
    rw [if_neg hne, hmap l]
  · rfl
  · intro d hdne hall
    unfold calculate_data_quality_score
    rw [if_neg (by simp : ¬([d] : List Dict) = [])]
    have hfil : (d.filter fun p => p.2.isSome) = [] :=
      List.filter_eq_nil_iff.mpr fun p hp => by rw [hall p hp]; simp
    simp [hdne, hfil]
    norm_num [pyRound2, pyRoundInt]
  · intro d hdne hall
    unfold calculate_data_quality_score
    rw [if_neg (by simp : ¬([d] : List Dict) = [])]
    have hfil : (d.filter fun p => p.2.isSome) = d :=
      List.filter_eq_self.mpr fun p hp => hall p hp
    have hlen : ((d.length : ℚ)) ≠ 0 := by
      have := length_pos_q hdne
      linarith
    simp [hdne, hfil, div_self hlen]
    norm_num [pyRound2, pyRoundInt]

/-- Witness for C3: a single reading with its one field present scores 1. -/
theorem quality_score_spec_witness :
    calculate_data_quality_score [[("a", some (PyVal.num 1))]] = 1 :=
  quality_score_spec.2.2.2 [("a", some (PyVal.num 1))] (by decide) (by decide)

/-- C4 counterexample. `aggregate_weather_data` reads the wall clock for its
`timestamp` key, so two calls on the identical list at different instants
return different records: the output is not a pure function of the input
list alone. -/
theorem aggregate_output_depends_on_clock :
    aggregate_weather_data [exReading] "2024-01-01T00:00:00+00:00" ≠
      aggregate_weather_data [exReading] "2024-01-01T00:20:00+00:00" := by
  intro h
  have h2 := congrArg timestampOf h
  rw [show timestampOf (aggregate_weather_data [exReading]
        "2024-01-01T00:00:00+00:00") = some "2024-01-01T00:00:00+00:00" from by decide,
    show timestampOf (aggregate_weather_data [exReading]
        "2024-01-01T00:20:00+00:00") = some "2024-01-01T00:20:00+00:00" from by decide]
    at h2
  exact absurd h2 (by decide)

/-- C4 amended. The score is a pure function of the reading list, and
aggregation is pure up to its clock stamp: calls at any two instants agree
on every component except `timestamp`. -/
theorem aggregate_and_score_pure_up_to_timestamp :
    ∀ (l : List Dict) (t₁ t₂ : String),
      stripTimestamp (aggregate_weather_data l t₁) =
        stripTimestamp (aggregate_weather_data l t₂) ∧
      calculate_data_quality_score l = calculate_data_quality_score l := by
  intro l t₁ t₂
  refine ⟨?_, rfl⟩
  unfold aggregate_weather_data
  split_ifs <;> rfl

theorem toNum_isSome_of_entry {es : List HistEntry}
    {proj : HistEntry → Option PyVal}
    (h : ∀ e ∈ es, numOk (proj e) = true)
    {v : PyVal} (hv : v ∈ truthyFilter (es.map proj)) :
    (PyVal.toNum v).isSome := by
  obtain ⟨hmem, -⟩ := truthyFilter_value_shape hv
  obtain ⟨e, he, hpe⟩ := List.mem_map.mp hmem
  exact toNum_isSome_of_numOk (h e he) hpe

theorem statEntry_spec {vals : List (Option PyVal)}
    (h : ∀ v ∈ truthyFilter vals, (PyVal.toNum v).isSome) :
    ∃ e : StatEntry, statEntry vals = some e ∧ entrySpec vals e := by
  by_cases hvs : truthyFilter vals = []
  · refine ⟨⟨none, none, none⟩, ?_, ?_⟩
    · unfold statEntry
      rw [if_pos hvs]
    · refine ⟨fun _ => rfl, fun hne => absurd hvs hne, ?_⟩
      intro q hq hq0
      exfalso
      have hmem : PyVal.num q ∈ truthyFilter vals :=
        mem_truthyFilter_of hq (by simp [PyVal.truthy, hq0])
      rw [hvs] at hmem
      simp at hmem
  · have hall := allNums_eq_of_no_str h
    have hse : statEntry vals = some
        ⟨some (pyRound2 ((((truthyFilter vals).filterMap PyVal.toNum).sum) /
            (((truthyFilter vals).filterMap PyVal.toNum).length))),
         some (listMin ((truthyFilter vals).filterMap PyVal.toNum)),
         some (listMax ((truthyFilter vals).filterMap PyVal.toNum))⟩ := by
      unfold statEntry
      rw [if_neg hvs, hall]
      rfl
    refine ⟨_, hse, ?_⟩
    refine ⟨fun hcon => absurd hcon hvs, fun _ => rfl, ?_⟩
    intro q hq hq0
    exact List.mem_filterMap.mpr ⟨PyVal.num q,
      mem_truthyFilter_of hq (by simp [PyVal.truthy, hq0]), rfl⟩

/-- C5 amended. For records whose tracked per-record averages are numbers,
the history statistics succeed and, per tracked field, are characterized by
the truthy (present and nonzero) per-record `{field}_avg` values: rounded
mean, unrounded min and max, all `None` when no value contributes, and
every present nonzero value contributes. A present zero is dropped by the
truthiness test, which is what the counterexample exhibits. -/
theorem statistics_of_truthy_field_avgs :
    ∀ items : List Item,
      entriesNumeric (items.map histEntry) = true →
      ∃ st : Statistics, computeStatistics (items.map histEntry) = some st ∧
        entrySpec ((items.map histEntry).map fun e => e.temperature)
          st.temperature ∧
        entrySpec ((items.map histEntry).map fun e => e.humidity) st.humidity ∧
        entrySpec ((items.map histEntry).map fun e => e.pressure) st.pressure := by
  intro items hnum
  have hb := List.all_eq_true.mp hnum
  have ht : ∀ e ∈ items.map histEntry, numOk e.temperature = true := by
    intro e he
    have := hb e he
    rw [Bool.and_eq_true, Bool.and_eq_true] at this
    exact this.1.1
  have hh : ∀ e ∈ items.map histEntry, numOk e.humidity = true := by
    intro e he
    have := hb e he
    rw [Bool.and_eq_true, Bool.and_eq_true] at this
    exact this.1.2
  have hp : ∀ e ∈ items.map histEntry, numOk e.pressure = true := by
    intro e he
    have := hb e he
    rw [Bool.and_eq_true] at this
    exact this.2
  obtain ⟨et, het, hspect⟩ := statEntry_spec (fun v hv => toNum_isSome_of_entry ht hv)
  obtain ⟨eh, heh, hspech⟩ := statEntry_spec (fun v hv => toNum_isSome_of_entry hh hv)
  obtain ⟨ep, hep, hspecp⟩ := statEntry_spec (fun v hv => toNum_isSome_of_entry hp hv)
  refine ⟨⟨et, eh, ep⟩, ?_, hspect, hspech, hspecp⟩
  unfold computeStatistics
  simp only [het, heh, hep]
  rfl

/-- Witness for the amended C5 at a concrete two-record window. -/
theorem statistics_of_truthy_field_avgs_witness :
    ∃ st : Statistics,
      computeStatistics (exZeroItems.map histEntry) = some st ∧
      entrySpec ((exZeroItems.map histEntry).map fun e => e.temperature)
        st.temperature ∧
      entrySpec ((exZeroItems.map histEntry).map fun e => e.humidity)
        st.humidity ∧
      entrySpec ((exZeroItems.map histEntry).map fun e => e.pressure)
        st.pressure :=
  statistics_of_truthy_field_avgs exZeroItems (by decide)

/-- C5 counterexample. In a window holding `temperature_avg` values 0 and
10 — both present — the code's statistics report `avg = min = 10`, not the
mean 5 over the present values the claim demands: a record whose value is
present but zero is excluded and zero never enters the computation. -/
theorem statistics_drops_present_zero_value :
    ((exZeroItems.map histEntry).map fun e => e.temperature) =
      [some (.num 0), some (.num 10)] ∧
    computeStatistics (exZeroItems.map histEntry) =
      some ⟨⟨some 10, some 10, some 10⟩, ⟨none, none, none⟩,
        ⟨none, none, none⟩⟩ ∧
    pyRound2 (((0 : ℚ) + 10) / 2) = 5 ∧ ((10 : ℚ) ≠ 5) := by
  refine ⟨by decide, ?_, ?_, by norm_num⟩
  · simp +decide [exZeroItems, computeStatistics, histEntry, statEntry,
      truthyFilter, getv, lookupKey, allNums, listMin, listMax, PyVal.toNum,
      PyVal.truthy]
    norm_num [pyRound2, pyRoundInt]
  · norm_num [pyRound2, pyRoundInt]

/-- C7. Each read endpoint answers 404 (NotFound) exactly when its query
returns zero records — a normal empty-result body distinct from the 500
StoreFailure body — and returns the record (resp. the record list with
statistics) whenever at least one record exists. -/
theorem notfound_iff_zero_records :
    ∀ (items : List Item) (hours : ℤ),
      ((get_current_weather (.ok items)).statusCode = 404 ↔ items = []) ∧
      (get_current_weather (.ok []) = create_response 404 .notFoundCurrent) ∧
      (∀ it rest, items = it :: rest →
        get_current_weather (.ok items) =
          create_response 200 (.currentData it.location it.timestamp
            it.data_quality_score it.weather_data.sources
            (currentConditions it.weather_data.numeric))) ∧
      (get_current_weather .clientError = create_response 500 .dbErrorCurrent) ∧
      (get_current_weather (.ok []) ≠ get_current_weather .clientError) ∧
      ((get_historical_weather hours (.ok items)).statusCode = 404 ↔ items = []) ∧
      (get_historical_weather hours (.ok []) =
        create_response 404 (.notFoundHistory hours)) ∧
      (∀ st : Statistics, items ≠ [] →
        computeStatistics (items.map histEntry) = some st →
        get_historical_weather hours (.ok items) =
          create_response 200 (.history hours (items.map histEntry).length st
            (items.map histEntry))) ∧
      (get_historical_weather hours .clientError =
        create_response 500 .dbErrorHistory) ∧
      (get_historical_weather hours (.ok []) ≠
        get_historical_weather hours .clientError) := by
  intro items hours
  refine ⟨?_, rfl, ?_, rfl, by decide, ?_, ?_, ?_, rfl, ?_⟩
  · cases items with
    | nil => simp [get_current_weather, create_response]
    | cons it rest => simp [get_current_weather, create_response]
  · intro it rest hitems
    subst hitems
    rfl
  · cases items with
    | nil => simp [get_historical_weather, create_response]
    | cons it rest =>
      cases hst : computeStatistics ((it :: rest).map histEntry) with
      | none =>
        rw [List.map_cons] at hst
        simp [get_historical_weather, create_response, hst]
      | some st =>
        rw [List.map_cons] at hst
        simp [get_historical_weather, create_response, hst]
  · simp [get_historical_weather, create_response]
  · intro st hne hst
    cases items with
    | nil => exact absurd rfl hne
    | cons it rest =>
      rw [List.map_cons] at hst
      simp [get_historical_weather, create_response, hst]
  · simp [get_historical_weather, create_response]

/-- Witness for C7 at a one-record store and an empty 24-hour window. -/
theorem notfound_iff_zero_records_witness :
    get_current_weather (.ok [exItem]) =
      create_response 200 (.currentData exItem.location exItem.timestamp
        exItem.data_quality_score exItem.weather_data.sources
        (currentConditions exItem.weather_data.numeric)) ∧
    (get_historical_weather 24 (.ok ([] : List Item))).statusCode = 404 :=
  ⟨((notfound_iff_zero_records [exItem] 24).2.2.1) exItem [] rfl,
   ((notfound_iff_zero_records [] 24).2.2.2.2.2.1).mpr rfl⟩

/-- C8. A cycle in which every adapter failed writes nothing to the store
and surfaces as the 500 error response; conversely a record is written only
when at least one adapter succeeded. -/
theorem zero_adapter_cycle_writes_nothing :
    ∀ (fetched : List (Option Dict)) (storeOk : Bool) (now : String),
      (fetched.filterMap id = [] →
        (collect_cycle fetched storeOk now).written = none ∧
        (collect_cycle fetched storeOk now).statusCode = 500) ∧
      ((collect_cycle fetched storeOk now).written ≠ none →
        fetched.filterMap id ≠ []) := by
  intro fetched storeOk now
  have h1 : fetched.filterMap id = [] →
      (collect_cycle fetched storeOk now).written = none ∧
      (collect_cycle fetched storeOk now).statusCode = 500 := by
    intro hempty
    simp only [collect_cycle]
    rw [if_pos hempty]
    exact ⟨rfl, rfl⟩
  exact ⟨h1, fun hw hempty => hw (h1 hempty).1⟩

/-- Witness for C8: two failed adapters, a willing store, nothing written,
status 500. -/
theorem zero_adapter_cycle_writes_nothing_witness :
    (collect_cycle [none, none] true "t").written = none ∧
    (collect_cycle [none, none] true "t").statusCode = 500 :=
  (zero_adapter_cycle_writes_nothing [none, none] true "t").1 (by decide)

/-- C9. The Open-Meteo adapter is attempted under every credential
configuration (in particular when retrieval yields none), and each keyed
adapter is attempted exactly when its credential is present with a truthy
(nonempty) value. -/
theorem openmeteo_always_others_iff_credential :
    ∀ keys : Dict,
      "openmeteo" ∈ build_clients keys ∧
      (∀ name, name ∈ (["openweathermap", "weatherapi", "visualcrossing",
          "tomorrow_io"] : List String) →
        (name ∈ build_clients keys ↔ truthyOpt (getv keys name) = true)) ∧
      build_clients [] = ["openmeteo"] := by
  intro keys
  refine ⟨?_, ?_, by decide⟩
  · simp [build_clients]
  · intro name hname
    fin_cases hname <;>
      cases h1 : truthyOpt (getv keys "openweathermap") <;>
      cases h2 : truthyOpt (getv keys "weatherapi") <;>
      cases h3 : truthyOpt (getv keys "visualcrossing") <;>
      cases h4 : truthyOpt (getv keys "tomorrow_io") <;>
      simp +decide [build_clients, h1, h2, h3, h4]

/-- Witness for C9: a configuration holding only a WeatherAPI key attempts
that adapter. -/
theorem openmeteo_always_others_iff_credential_witness :
    "weatherapi" ∈ build_clients [("weatherapi", some (PyVal.str "k"))] :=
  ((openmeteo_always_others_iff_credential
      [("weatherapi", some (PyVal.str "k"))]).2.1 "weatherapi"
    (by decide)).mpr (by decide)

/-- C10. A `/weather/history` request whose `hours` query value is the
non-numeric string abc makes the handler raise out of `int(...)` instead of
returning a response, and `hours` is clamped only from above: -5 reaches
`get_historical_weather` unvalidated while 1000 is clamped to 168. -/
theorem history_hours_parse_and_clamp :
    (∀ (cq hq : FetchOutcome) (hr : ApiResp),
      api_lambda_handler
        ⟨some "GET", some "/weather/history", some [("hours", some (.str "abc"))]⟩
        cq hq hr = none) ∧
    (api_lambda_handler
        ⟨some "GET", some "/weather/history", some [("hours", some (.str "-5"))]⟩
        .clientError (.ok []) (create_response 200 .emptyBody) =
      some (create_response 404 (.notFoundHistory (-5)))) ∧
    (api_lambda_handler
        ⟨some "GET", some "/weather/history", some [("hours", some (.str "1000"))]⟩
        .clientError (.ok []) (create_response 200 .emptyBody) =
      some (create_response 404 (.notFoundHistory 168))) := by
  refine ⟨fun cq hq hr => ?_, ?_, ?_⟩ <;> rfl

end WeatherAPI
